import Mathlib

/-!
Shallow embedding of `installer/shells/test-restapi.py` (CordysCRM REST API
smoke-test harness).

The HTTP client, wall clock and JSON text (de)serialization are external
collaborators; each HTTP call's observable outcome is an explicit
`CallOutcome` input (a received response with status/body/parse-result and
measured elapsed time, a timeout, or another transport failure carrying the
exception's string description).  JSON documents are modelled as abstract
JSON values (`JValue`); the byte-level encode/decode of the `json` library
is out of scope per the specification.
-/

/-- Abstract JSON value, the image of Python values handled by the script
(`json.loads` results, raw strings, `None`, numbers, booleans). -/
inductive JValue where
  | null : JValue
  | bool (b : Bool) : JValue
  | num (q : ℚ) : JValue
  | str (s : String) : JValue
  | arr (xs : List JValue) : JValue
  | obj (kvs : List (String × JValue)) : JValue
  deriving Repr

/-- `TestResult` dataclass: result of a single API test
(`test-restapi.py` lines 38-51). `method` is the literal string
`"GET"`/`"POST"` as in the source; `response_body` is `JValue.null`
when the Python field is `None`. -/
structure TestResult where
  module : String
  endpoint : String
  method : String
  success : Bool
  status_code : Nat
  response_time_ms : ℚ
  error_message : String := ""
  response_body : JValue := JValue.null
  deriving Repr

/-- `TestResult.to_dict` = `dataclasses.asdict`: the fields, in declaration
order, as a JSON object's key/value list. -/
def TestResult.to_dict (r : TestResult) : List (String × JValue) :=
  [ ("module", JValue.str r.module)
  , ("endpoint", JValue.str r.endpoint)
  , ("method", JValue.str r.method)
  , ("success", JValue.bool r.success)
  , ("status_code", JValue.num r.status_code)
  , ("response_time_ms", JValue.num r.response_time_ms)
  , ("error_message", JValue.str r.error_message)
  , ("response_body", r.response_body) ]

/-- Outcome of one HTTP request, as seen by the script:
either a response (status code, body text, the result of attempting
`json.loads` on that text, and the measured elapsed milliseconds),
or `requests.exceptions.Timeout`, or any other exception `e`
carrying `str(e)`. -/
inductive CallOutcome where
  | response (status : Nat) (text : String) (parsed : Option JValue) (elapsed : ℚ)
  | timeout
  | failure (msg : String)
  deriving Repr

instance : Inhabited CallOutcome := ⟨CallOutcome.timeout⟩

/-- `CordysCRMTester` state: constructor-fixed session config plus the
mutable ordered result log (`self.results`). -/
structure Tester where
  base_url : String
  username : String
  password : String
  org_id : String
  timeout : Nat
  results : List TestResult := []
  deriving Repr

/-- `_safe_parse_json`: `json.loads(text)` if it parses, else the raw text
(line 195-200).  The parse attempt's result is the `parsed` component of the
call outcome. -/
def safe_parse_json (parsed : Option JValue) (text : String) : JValue :=
  match parsed with
  | some v => v
  | none => JValue.str text

/-- Body stored in the record: `self._safe_parse_json(response.text) if
response.text else None` (lines 96, 155). -/
def bodyOfResponse (text : String) (parsed : Option JValue) : JValue :=
  if text = "" then JValue.null else safe_parse_json parsed text

/-- `test_get` (lines 77-134): one GET call producing one record,
appended to the log. -/
def test_get (t : Tester) (out : CallOutcome) (path mod : String) :
    TestResult × Tester :=
  match out with
  | CallOutcome.response status text parsed elapsed =>
      let r : TestResult :=
        { module := mod, endpoint := path, method := "GET"
        , success := status == 200, status_code := status
        , response_time_ms := elapsed
        , error_message :=
            if status == 200 then "" else "Expected 200, got " ++ toString status
        , response_body := bodyOfResponse text parsed }
      (r, { t with results := t.results ++ [r] })
  | CallOutcome.timeout =>
      let r : TestResult :=
        { module := mod, endpoint := path, method := "GET"
        , success := false, status_code := 0
        , response_time_ms := (t.timeout : ℚ) * 1000
        , error_message := "Request timeout" }
      (r, { t with results := t.results ++ [r] })
  | CallOutcome.failure msg =>
      let r : TestResult :=
        { module := mod, endpoint := path, method := "GET"
        , success := false, status_code := 0
        , response_time_ms := 0
        , error_message := msg }
      (r, { t with results := t.results ++ [r] })

/-- `test_post` (lines 136-193): identical to `test_get` except the method
string; the JSON request body does not influence the produced record. -/
def test_post (t : Tester) (out : CallOutcome) (path : String) (_data : JValue)
    (mod : String) : TestResult × Tester :=
  match out with
  | CallOutcome.response status text parsed elapsed =>
      let r : TestResult :=
        { module := mod, endpoint := path, method := "POST"
        , success := status == 200, status_code := status
        , response_time_ms := elapsed
        , error_message :=
            if status == 200 then "" else "Expected 200, got " ++ toString status
        , response_body := bodyOfResponse text parsed }
      (r, { t with results := t.results ++ [r] })
  | CallOutcome.timeout =>
      let r : TestResult :=
        { module := mod, endpoint := path, method := "POST"
        , success := false, status_code := 0
        , response_time_ms := (t.timeout : ℚ) * 1000
        , error_message := "Request timeout" }
      (r, { t with results := t.results ++ [r] })
  | CallOutcome.failure msg =>
      let r : TestResult :=
        { module := mod, endpoint := path, method := "POST"
        , success := false, status_code := 0
        , response_time_ms := 0
        , error_message := msg }
      (r, { t with results := t.results ++ [r] })

/-- One `test_get`/`test_post` invocation in a group method: the literal
path, POST body and module label from the source. -/
inductive Call where
  | get (path mod : String)
  | post (path : String) (data : JValue) (mod : String)

/-- One step of `run_all_tests`: a recorded primitive call, or the ad-hoc
Swagger-UI request of `_test_basic_health` (lines 283-290), which issues a
request but appends no record. -/
inductive Step where
  | call (c : Call)
  | swaggerCheck

/-- The special-cased Swagger-UI verdict: success iff a response was
received with status `in [200, 302]` (line 285). -/
def swagger_ok (out : CallOutcome) : Bool :=
  match out with
  | CallOutcome.response status _ _ _ => status == 200 || status == 302
  | _ => false

/-- Execute one step: a `Call` appends its record via the primitive; the
Swagger check only console-logs (via `swagger_ok`) and leaves the state
untouched. -/
def runStep (t : Tester) (out : CallOutcome) (s : Step) : Tester :=
  match s with
  | Step.call (Call.get path mod) => (test_get t out path mod).2
  | Step.call (Call.post path data mod) => (test_post t out path data mod).2
  | Step.swaggerCheck => t

/-- Sequentially execute steps; the i-th step consumes the i-th element of
the environment's outcome list (an absent element defaults to a timeout —
every request has some outcome). -/
def runSteps (t : Tester) : List Step → List CallOutcome → Tester
  | [], _ => t
  | s :: ss, outs => runSteps (runStep t (outs.headD default) s) ss outs.tail

def test_basic_healthSteps : List Step := [
  Step.call (Call.get "/v3/api-docs" "Health"),
  Step.swaggerCheck,
  Step.call (Call.get "/system/version" "Health"),
  Step.call (Call.post "/locale-language/change" (JValue.obj [("language", JValue.str "zh_CN")]) "Health") ]

def test_home_statisticsSteps : List Step := [
  Step.call (Call.post "/home/statistic/lead" (JValue.obj []) "Home"),
  Step.call (Call.post "/home/statistic/opportunity" (JValue.obj []) "Home"),
  Step.call (Call.post "/home/statistic/opportunity/underway" (JValue.obj []) "Home"),
  Step.call (Call.post "/home/statistic/opportunity/success" (JValue.obj []) "Home"),
  Step.call (Call.get "/home/statistic/department/tree" "Home") ]

def test_dashboard_moduleSteps : List Step := [
  Step.call (Call.get "/dashboard/module/tree" "Dashboard"),
  Step.call (Call.get "/dashboard/module/count" "Dashboard") ]

def test_customer_moduleSteps : List Step := [
  Step.call (Call.get "/account/module/form" "Customer"),
  Step.call (Call.post "/account/page" (JValue.obj [("current", JValue.num 1), ("pageSize", JValue.num 1)]) "Customer"),
  Step.call (Call.post "/account/option" (JValue.obj [("current", JValue.num 1), ("pageSize", JValue.num 10), ("keyword", JValue.str "")]) "Customer"),
  Step.call (Call.get "/account/tab" "Customer"),
  Step.call (Call.post "/account/contact/page" (JValue.obj [("current", JValue.num 1), ("pageSize", JValue.num 1)]) "Customer"),
  Step.call (Call.get "/account/contact/module/form" "Customer"),
  Step.call (Call.get "/account/contact/tab" "Customer"),
  Step.call (Call.post "/account/follow/record/page" (JValue.obj [("current", JValue.num 1), ("pageSize", JValue.num 1)]) "Customer"),
  Step.call (Call.post "/account/follow/plan/page" (JValue.obj [("current", JValue.num 1), ("pageSize", JValue.num 1)]) "Customer"),
  Step.call (Call.post "/account/contract/page" (JValue.obj [("current", JValue.num 1), ("pageSize", JValue.num 1)]) "Customer"),
  Step.call (Call.post "/account/contract/payment-plan/page" (JValue.obj [("current", JValue.num 1), ("pageSize", JValue.num 1)]) "Customer"),
  Step.call (Call.post "/account/contract/payment-record/page" (JValue.obj [("current", JValue.num 1), ("pageSize", JValue.num 1)]) "Customer"),
  Step.call (Call.post "/account/invoice/page" (JValue.obj [("current", JValue.num 1), ("pageSize", JValue.num 1)]) "Customer") ]

def test_customer_pool_moduleSteps : List Step := [
  Step.call (Call.post "/account-pool/page" (JValue.obj [("current", JValue.num 1), ("pageSize", JValue.num 1)]) "CustomerPool"),
  Step.call (Call.post "/pool/account/page" (JValue.obj [("current", JValue.num 1), ("pageSize", JValue.num 1)]) "CustomerPool"),
  Step.call (Call.get "/pool/account/options" "CustomerPool") ]

def test_clue_moduleSteps : List Step := [
  Step.call (Call.get "/lead/module/form" "Clue"),
  Step.call (Call.post "/lead/page" (JValue.obj [("current", JValue.num 1), ("pageSize", JValue.num 1)]) "Clue"),
  Step.call (Call.get "/lead/tab" "Clue"),
  Step.call (Call.post "/lead/follow/record/page" (JValue.obj [("current", JValue.num 1), ("pageSize", JValue.num 1)]) "Clue"),
  Step.call (Call.post "/lead/follow/plan/page" (JValue.obj [("current", JValue.num 1), ("pageSize", JValue.num 1)]) "Clue"),
  Step.call (Call.post "/lead-pool/page" (JValue.obj [("current", JValue.num 1), ("pageSize", JValue.num 1)]) "Clue"),
  Step.call (Call.post "/pool/lead/page" (JValue.obj [("current", JValue.num 1), ("pageSize", JValue.num 1)]) "Clue"),
  Step.call (Call.get "/pool/lead/options" "Clue") ]

def test_opportunity_moduleSteps : List Step := [
  Step.call (Call.get "/opportunity/module/form" "Opportunity"),
  Step.call (Call.post "/opportunity/page" (JValue.obj [("current", JValue.num 1), ("pageSize", JValue.num 1)]) "Opportunity"),
  Step.call (Call.post "/opportunity/statistic" (JValue.obj [("viewId", JValue.str "ALL")]) "Opportunity"),
  Step.call (Call.get "/opportunity/tab" "Opportunity"),
  Step.call (Call.post "/opportunity/follow/record/page" (JValue.obj [("current", JValue.num 1), ("pageSize", JValue.num 1)]) "Opportunity"),
  Step.call (Call.post "/opportunity/follow/plan/page" (JValue.obj [("current", JValue.num 1), ("pageSize", JValue.num 1)]) "Opportunity"),
  Step.call (Call.get "/opportunity/stage/get" "Opportunity") ]

def test_product_moduleSteps : List Step := [
  Step.call (Call.get "/product/module/form" "Product"),
  Step.call (Call.post "/product/page" (JValue.obj [("current", JValue.num 1), ("pageSize", JValue.num 1)]) "Product"),
  Step.call (Call.get "/product/list/option" "Product"),
  Step.call (Call.post "/price/page" (JValue.obj [("current", JValue.num 1), ("pageSize", JValue.num 1)]) "Product"),
  Step.call (Call.get "/price/module/form" "Product") ]

def test_contract_moduleSteps : List Step := [
  Step.call (Call.get "/contract/module/form" "Contract"),
  Step.call (Call.post "/contract/page" (JValue.obj [("current", JValue.num 1), ("pageSize", JValue.num 1)]) "Contract"),
  Step.call (Call.get "/contract/tab" "Contract"),
  Step.call (Call.post "/contract/payment-plan/page" (JValue.obj [("current", JValue.num 1), ("pageSize", JValue.num 1)]) "Contract"),
  Step.call (Call.get "/contract/payment-plan/module/form" "Contract"),
  Step.call (Call.get "/contract/payment-plan/tab" "Contract"),
  Step.call (Call.post "/contract/payment-record/page" (JValue.obj [("current", JValue.num 1), ("pageSize", JValue.num 1)]) "Contract"),
  Step.call (Call.get "/contract/payment-record/module/form" "Contract"),
  Step.call (Call.get "/contract/payment-record/tab" "Contract"),
  Step.call (Call.post "/contract/business-title/page" (JValue.obj [("current", JValue.num 1), ("pageSize", JValue.num 1)]) "Contract") ]

def test_invoice_moduleSteps : List Step := [
  Step.call (Call.post "/invoice/page" (JValue.obj [("current", JValue.num 1), ("pageSize", JValue.num 1)]) "Invoice"),
  Step.call (Call.get "/invoice/module/form" "Invoice"),
  Step.call (Call.get "/invoice/tab" "Invoice") ]

def test_view_managementSteps : List Step := [
  Step.call (Call.get "/account/view/list" "View"),
  Step.call (Call.get "/account/contact/view/list" "View"),
  Step.call (Call.get "/pool/account/view/list" "View"),
  Step.call (Call.get "/lead/view/list" "View"),
  Step.call (Call.get "/pool/lead/view/list" "View"),
  Step.call (Call.get "/opportunity/view/list" "View"),
  Step.call (Call.get "/contract/view/list" "View"),
  Step.call (Call.get "/contract/payment-plan/view/list" "View"),
  Step.call (Call.get "/contract/payment-record/view/list" "View"),
  Step.call (Call.get "/invoice/view/list" "View") ]

def test_search_moduleSteps : List Step := [
  Step.call (Call.post "/global/search/account" (JValue.obj [("current", JValue.num 1), ("pageSize", JValue.num 1), ("keyword", JValue.str "")]) "Search"),
  Step.call (Call.post "/global/search/customer_pool" (JValue.obj [("current", JValue.num 1), ("pageSize", JValue.num 1), ("keyword", JValue.str "")]) "Search"),
  Step.call (Call.post "/global/search/contact" (JValue.obj [("current", JValue.num 1), ("pageSize", JValue.num 1), ("keyword", JValue.str "")]) "Search"),
  Step.call (Call.post "/global/search/lead" (JValue.obj [("current", JValue.num 1), ("pageSize", JValue.num 1), ("keyword", JValue.str "")]) "Search"),
  Step.call (Call.post "/global/search/clue_pool" (JValue.obj [("current", JValue.num 1), ("pageSize", JValue.num 1), ("keyword", JValue.str "")]) "Search"),
  Step.call (Call.post "/global/search/opportunity" (JValue.obj [("current", JValue.num 1), ("pageSize", JValue.num 1), ("keyword", JValue.str "")]) "Search"),
  Step.call (Call.post "/advanced/search/account" (JValue.obj [("current", JValue.num 1), ("pageSize", JValue.num 1)]) "Search"),
  Step.call (Call.post "/advanced/search/account-pool" (JValue.obj [("current", JValue.num 1), ("pageSize", JValue.num 1)]) "Search"),
  Step.call (Call.post "/advanced/search/contact" (JValue.obj [("current", JValue.num 1), ("pageSize", JValue.num 1)]) "Search"),
  Step.call (Call.post "/advanced/search/lead" (JValue.obj [("current", JValue.num 1), ("pageSize", JValue.num 1)]) "Search"),
  Step.call (Call.post "/advanced/search/lead-pool" (JValue.obj [("current", JValue.num 1), ("pageSize", JValue.num 1)]) "Search"),
  Step.call (Call.post "/advanced/search/opportunity" (JValue.obj [("current", JValue.num 1), ("pageSize", JValue.num 1)]) "Search"),
  Step.call (Call.get "/global/search/module/count" "Search") ]

def test_follow_up_moduleSteps : List Step := [
  Step.call (Call.post "/follow/record/page" (JValue.obj [("current", JValue.num 1), ("pageSize", JValue.num 1)]) "Follow"),
  Step.call (Call.get "/follow/record/tab" "Follow"),
  Step.call (Call.post "/follow/plan/page" (JValue.obj [("current", JValue.num 1), ("pageSize", JValue.num 1)]) "Follow"),
  Step.call (Call.get "/follow/plan/tab" "Follow"),
  Step.call (Call.get "/follow/record/view/list" "Follow"),
  Step.call (Call.get "/follow/plan/view/list" "Follow") ]

def test_system_moduleSteps : List Step := [
  Step.call (Call.get "/module/list" "System"),
  Step.call (Call.get "/module/user/dept/tree" "System"),
  Step.call (Call.get "/module/role/tree" "System"),
  Step.call (Call.get "/module/advanced-search/settings" "System"),
  Step.call (Call.get "/dict/get/ACCOUNT" "System"),
  Step.call (Call.get "/dict/config" "System"),
  Step.call (Call.get "/search/config/get" "System"),
  Step.call (Call.get "/mask/config/get" "System"),
  Step.call (Call.get "/navigation/list" "System") ]

def test_organization_moduleSteps : List Step := [
  Step.call (Call.get "/department/tree" "Organization") ]

def test_role_permission_moduleSteps : List Step := [
  Step.call (Call.get "/role/list" "Role"),
  Step.call (Call.get "/role/user/dept/tree" "Role"),
  Step.call (Call.get "/role/dept/tree" "Role") ]

def test_message_notification_moduleSteps : List Step := [
  Step.call (Call.post "/notification/list/all/page" (JValue.obj [("current", JValue.num 1), ("pageSize", JValue.num 10)]) "Message"),
  Step.call (Call.get "/notification/count" "Message") ]

def test_personal_center_moduleSteps : List Step := [
  Step.call (Call.get "/personal/center/info" "Personal"),
  Step.call (Call.post "/personal/center/follow/plan/list" (JValue.obj [("current", JValue.num 1), ("pageSize", JValue.num 10)]) "Personal"),
  Step.call (Call.post "/export/center/list" (JValue.obj [("current", JValue.num 1), ("pageSize", JValue.num 10)]) "Personal"),
  Step.call (Call.get "/user/api/key/list" "Personal") ]

def test_file_management_moduleSteps : List Step := [
  Step.call (Call.post "/pic/upload/temp" (JValue.obj []) "File"),
  Step.call (Call.post "/attachment/upload/temp" (JValue.obj []) "File") ]

def test_agent_moduleSteps : List Step := [
  Step.call (Call.post "/agent/page" (JValue.obj [("current", JValue.num 1), ("pageSize", JValue.num 10)]) "Agent"),
  Step.call (Call.get "/agent/option" "Agent"),
  Step.call (Call.get "/agent/module/tree" "Agent"),
  Step.call (Call.get "/agent/module/count" "Agent") ]

/-- `run_all_tests` (lines 202-273): the twenty groups in fixed order. -/
def allSteps : List Step :=
  test_basic_healthSteps ++ test_home_statisticsSteps ++
  test_dashboard_moduleSteps ++ test_customer_moduleSteps ++
  test_customer_pool_moduleSteps ++ test_clue_moduleSteps ++
  test_opportunity_moduleSteps ++ test_product_moduleSteps ++
  test_contract_moduleSteps ++ test_invoice_moduleSteps ++
  test_view_managementSteps ++ test_search_moduleSteps ++
  test_follow_up_moduleSteps ++ test_system_moduleSteps ++
  test_organization_moduleSteps ++ test_role_permission_moduleSteps ++
  test_message_notification_moduleSteps ++ test_personal_center_moduleSteps ++
  test_file_management_moduleSteps ++ test_agent_moduleSteps

/-- `run_all_tests` as a state transformer over the environment's outcomes. -/
def run_all_tests (t : Tester) (outs : List CallOutcome) : Tester :=
  runSteps t allSteps outs

/-- The aggregate figures computed by `_print_summary` (lines 543-557):
`total = len(results)`, `passed = sum(1 for r if r.success)`,
`failed = total - passed`, `rate = passed / total * 100`. -/
structure Summary where
  total : Nat
  passed : Nat
  failed : Nat
  rate : ℚ
  deriving Repr

/-- `_print_summary`'s computation on the log. -/
def print_summary (results : List TestResult) : Summary :=
  let total := results.length
  let passed := (results.filter (fun r => r.success)).length
  let failed := total - passed
  { total := total, passed := passed, failed := failed
  , rate := (passed : ℚ) / (total : ℚ) * 100 }

/-- `main`'s exit code (lines 616-618): `failed = sum(1 for r in results
if not r.success)`; exit `1` if `failed > 0` else `0`. -/
def mainExitCode (results : List TestResult) : Nat :=
  if (results.countP (fun r => !r.success)) > 0 then 1 else 0

/-- `save_results` (lines 577-581): the JSON document written to the output
file — `json.dump([r.to_dict() for r in self.results], ...)`.  The
byte-level encoding/decoding (`json.dump`/`json.load`) of such a document
is the external `json` library, which is the identity on the abstract
value; reloading the file yields this `JValue` again. -/
def save_results (results : List TestResult) : JValue :=
  JValue.arr (results.map (fun r => JValue.obj r.to_dict))

/-- `str.rstrip('/')`: drop trailing slashes of the base URL (line 58). -/
def rstripSlash (s : String) : String :=
  String.mk ((s.toList.reverse.dropWhile (fun c => c == '/')).reverse)

/-- The parsed command-line arguments (lines 585-601), `--verbose`
included. -/
structure Args where
  base_url : String := "http://127.0.0.1:8081"
  username : String := "admin"
  password : String := "CordysCRM"
  org_id : String := "100001"
  verbose : Bool := false
  timeout : Nat := 30
  output : Option String := none
  deriving Repr

/-- `CordysCRMTester.__init__` called from `main` (lines 57-70, 603-609):
the session config; the result log starts empty. -/
def mkTester (a : Args) : Tester :=
  { base_url := rstripSlash a.base_url
  , username := a.username
  , password := a.password
  , org_id := a.org_id
  , timeout := a.timeout
  , results := [] }

/-- The request a step issues on the wire: method, full URL
(`base_url + path`), and the JSON body for POSTs.  The Swagger check
requests `base_url + "/swagger-ui/index.html"` directly (line 284). -/
def requestOfStep (base : String) (s : Step) : String × String × Option JValue :=
  match s with
  | Step.call (Call.get path _) => ("GET", base ++ path, none)
  | Step.call (Call.post path data _) => ("POST", base ++ path, some data)
  | Step.swaggerCheck => ("GET", base ++ "/swagger-ui/index.html", none)

/-- The fixed sequence of requests a full run issues. -/
def issuedRequests (t : Tester) : List (String × String × Option JValue) :=
  allSteps.map (requestOfStep t.base_url)

/-- `main` (lines 584-618) as a function of the parsed arguments and the
environment's outcomes: the observable effects are the issued requests, the
final result log, the optionally saved JSON file, and the exit code. -/
def mainRun (a : Args) (outs : List CallOutcome) :
    List (String × String × Option JValue) × List TestResult × Option JValue × Nat :=
  let t := mkTester a
  let t2 := run_all_tests t outs
  ( issuedRequests t
  , t2.results
  , a.output.map (fun _ => save_results t2.results)
  , mainExitCode t2.results )

/-! ### Helper lemmas -/

/-- Number of recorded primitive calls in a step list. -/
def countCalls (ss : List Step) : Nat :=
  ss.countP (fun s => match s with | Step.call _ => true | Step.swaggerCheck => false)

theorem runStep_results_length (t : Tester) (out : CallOutcome) (c : Call) :
    (runStep t out (Step.call c)).results.length = t.results.length + 1 := by
  cases c with
  | get path mod => cases out <;> simp [runStep, test_get]
  | post path data mod => cases out <;> simp [runStep, test_post]

theorem runSteps_results_length (ss : List Step) :
    ∀ (t : Tester) (outs : List CallOutcome),
      (runSteps t ss outs).results.length = t.results.length + countCalls ss := by
  induction ss with
  | nil => intro t outs; simp [runSteps, countCalls]
  | cons s ss ih =>
      intro t outs
      rw [runSteps, ih]
      cases s with
      | call c =>
          rw [runStep_results_length]
          simp [countCalls, List.countP_cons]
          omega
      | swaggerCheck => simp [runStep, countCalls, List.countP_cons]

theorem countCalls_allSteps : countCalls allSteps = 113 := by rfl

/-- The (method, path) identity of each recorded call in a step list. -/
def callIds (ss : List Step) : List (String × String) :=
  ss.filterMap (fun s => match s with
    | Step.call (Call.get p _) => some ("GET", p)
    | Step.call (Call.post p _ _) => some ("POST", p)
    | Step.swaggerCheck => none)

/-! ### Claims -/

/-- **C1**: every record appended by `test_get`/`test_post` satisfies
`success = true ↔ status_code = 200`; a record from a received response
carries that response's status code, and a record from a transport-level
failure (timeout or other exception, whose description is nonempty) has
`status_code = 0`, `success = false` and a populated `error_message`. -/
theorem c1_success_iff_status_200 (t : Tester) (out : CallOutcome)
    (path data mod : String)
    (hmsg : ∀ m, out = CallOutcome.failure m → m ≠ "") :
    (((test_get t out path mod).1.success = true ↔
        (test_get t out path mod).1.status_code = 200)
      ∧ ((test_post t out path (JValue.str data) mod).1.success = true ↔
        (test_post t out path (JValue.str data) mod).1.status_code = 200))
    ∧ (∀ s txt p e, out = CallOutcome.response s txt p e →
        (test_get t out path mod).1.status_code = s
        ∧ (test_post t out path (JValue.str data) mod).1.status_code = s)
    ∧ ((out = CallOutcome.timeout ∨ ∃ m, out = CallOutcome.failure m) →
        ((test_get t out path mod).1.status_code = 0
          ∧ (test_get t out path mod).1.success = false
          ∧ (test_get t out path mod).1.error_message ≠ "")
        ∧ ((test_post t out path (JValue.str data) mod).1.status_code = 0
          ∧ (test_post t out path (JValue.str data) mod).1.success = false
          ∧ (test_post t out path (JValue.str data) mod).1.error_message ≠ "")) := by
  cases out with
  | response s txt p e =>
      refine ⟨⟨?_, ?_⟩, ?_, ?_⟩ <;>
        simp [test_get, test_post]
      intros
      omega
  | timeout =>
      refine ⟨⟨?_, ?_⟩, ?_, ?_⟩ <;>
        simp [test_get, test_post]
  | failure m =>
      have hm : m ≠ "" := hmsg m rfl
      refine ⟨⟨?_, ?_⟩, ?_, ?_⟩ <;>
        simp [test_get, test_post, hm]

theorem c1_success_iff_status_200_witness :
    ((test_get (mkTester {}) (CallOutcome.failure "connection refused")
        "/v3/api-docs" "Health").1.status_code = 0
      ∧ (test_get (mkTester {}) (CallOutcome.failure "connection refused")
        "/v3/api-docs" "Health").1.success = false
      ∧ (test_get (mkTester {}) (CallOutcome.failure "connection refused")
        "/v3/api-docs" "Health").1.error_message ≠ "")
    ∧ ((test_post (mkTester {}) (CallOutcome.failure "connection refused")
        "/agent/page" (JValue.str "x") "Agent").1.status_code = 0
      ∧ (test_post (mkTester {}) (CallOutcome.failure "connection refused")
        "/agent/page" (JValue.str "x") "Agent").1.success = false
      ∧ (test_post (mkTester {}) (CallOutcome.failure "connection refused")
        "/agent/page" (JValue.str "x") "Agent").1.error_message ≠ "") :=
  (c1_success_iff_status_200 (mkTester {}) (CallOutcome.failure "connection refused")
      "/v3/api-docs" "x" "Health"
      (by intro m h; cases h; decide)).2.2
    (Or.inr ⟨"connection refused", rfl⟩)

/-- **C2**: a timed-out `test_get`/`test_post` call appends a record with
`status_code = 0`, `response_time_ms = timeout * 1000` (a fixed sentinel,
the configured timeout in seconds times 1000) and
`error_message = "Request timeout"`; the only state change is that
append (the failure is non-fatal). -/
theorem c2_timeout_record (t : Tester) (path mod : String) (data : JValue) :
    ((test_get t CallOutcome.timeout path mod).1.status_code = 0
      ∧ (test_get t CallOutcome.timeout path mod).1.response_time_ms
          = (t.timeout : ℚ) * 1000
      ∧ (test_get t CallOutcome.timeout path mod).1.error_message
          = "Request timeout"
      ∧ (test_get t CallOutcome.timeout path mod).2
          = { t with results :=
                t.results ++ [(test_get t CallOutcome.timeout path mod).1] })
    ∧ ((test_post t CallOutcome.timeout path data mod).1.status_code = 0
      ∧ (test_post t CallOutcome.timeout path data mod).1.response_time_ms
          = (t.timeout : ℚ) * 1000
      ∧ (test_post t CallOutcome.timeout path data mod).1.error_message
          = "Request timeout"
      ∧ (test_post t CallOutcome.timeout path data mod).2
          = { t with results :=
                t.results ++ [(test_post t CallOutcome.timeout path data mod).1] }) := by
  refine ⟨⟨rfl, rfl, rfl, rfl⟩, rfl, rfl, rfl, rfl⟩

/-- **C3**: a `test_get`/`test_post` call failing at transport level for a
reason other than timeout appends a record with `status_code = 0`,
`response_time_ms = 0` and `error_message` equal to the underlying
exception's string description (nonempty for real transport failures);
the only state change is that append. -/
theorem c3_transport_failure_record (t : Tester) (path mod msg : String)
    (data : JValue) (hmsg : msg ≠ "") :
    ((test_get t (CallOutcome.failure msg) path mod).1.status_code = 0
      ∧ (test_get t (CallOutcome.failure msg) path mod).1.response_time_ms = 0
      ∧ (test_get t (CallOutcome.failure msg) path mod).1.error_message = msg
      ∧ (test_get t (CallOutcome.failure msg) path mod).1.error_message ≠ ""
      ∧ (test_get t (CallOutcome.failure msg) path mod).2
          = { t with results :=
                t.results ++ [(test_get t (CallOutcome.failure msg) path mod).1] })
    ∧ ((test_post t (CallOutcome.failure msg) path data mod).1.status_code = 0
      ∧ (test_post t (CallOutcome.failure msg) path data mod).1.response_time_ms = 0
      ∧ (test_post t (CallOutcome.failure msg) path data mod).1.error_message = msg
      ∧ (test_post t (CallOutcome.failure msg) path data mod).1.error_message ≠ ""
      ∧ (test_post t (CallOutcome.failure msg) path data mod).2
          = { t with results :=
                t.results ++ [(test_post t (CallOutcome.failure msg) path data mod).1] }) := by
  refine ⟨⟨rfl, rfl, rfl, hmsg, rfl⟩, rfl, rfl, rfl, hmsg, rfl⟩

theorem c3_transport_failure_record_witness :
    (test_get (mkTester {}) (CallOutcome.failure "Connection refused")
        "/system/version" "Health").1.status_code = 0
    ∧ (test_get (mkTester {}) (CallOutcome.failure "Connection refused")
        "/system/version" "Health").1.response_time_ms = 0
    ∧ (test_get (mkTester {}) (CallOutcome.failure "Connection refused")
        "/system/version" "Health").1.error_message = "Connection refused"
    ∧ (test_get (mkTester {}) (CallOutcome.failure "Connection refused")
        "/system/version" "Health").1.error_message ≠ ""
    ∧ (test_get (mkTester {}) (CallOutcome.failure "Connection refused")
        "/system/version" "Health").2
        = { mkTester {} with results :=
              [(test_get (mkTester {}) (CallOutcome.failure "Connection refused")
                  "/system/version" "Health").1] } :=
  (c3_transport_failure_record (mkTester {}) "/system/version" "Health"
      "Connection refused" JValue.null (by decide)).1

/-- **C4**: a `test_get`/`test_post` call receiving an HTTP response whose
status code `s` differs from 200 (including other 2xx codes) appends a
record with `success = false`, `status_code = s` and
`error_message = "Expected 200, got " ++ toString s`. -/
theorem c4_non_200_response_record (t : Tester) (path mod txt : String)
    (data : JValue) (p : Option JValue) (e : ℚ) (s : Nat) (hs : s ≠ 200) :
    ((test_get t (CallOutcome.response s txt p e) path mod).1.success = false
      ∧ (test_get t (CallOutcome.response s txt p e) path mod).1.status_code = s
      ∧ (test_get t (CallOutcome.response s txt p e) path mod).1.error_message
          = "Expected 200, got " ++ toString s
      ∧ (test_get t (CallOutcome.response s txt p e) path mod).2.results
          = t.results ++ [(test_get t (CallOutcome.response s txt p e) path mod).1])
    ∧ ((test_post t (CallOutcome.response s txt p e) path data mod).1.success = false
      ∧ (test_post t (CallOutcome.response s txt p e) path data mod).1.status_code = s
      ∧ (test_post t (CallOutcome.response s txt p e) path data mod).1.error_message
          = "Expected 200, got " ++ toString s
      ∧ (test_post t (CallOutcome.response s txt p e) path data mod).2.results
          = t.results ++ [(test_post t (CallOutcome.response s txt p e) path data mod).1]) := by
  refine ⟨⟨?_, rfl, ?_, rfl⟩, ?_, rfl, ?_, rfl⟩ <;>
    simp [test_get, test_post, hs]

theorem c4_non_200_response_record_witness :
    (test_post (mkTester {}) (CallOutcome.response 404 "" none 5)
        "/agent/page" (JValue.obj [("current", JValue.num 1), ("pageSize", JValue.num 10)])
        "Agent").1.success = false
    ∧ (test_post (mkTester {}) (CallOutcome.response 404 "" none 5)
        "/agent/page" (JValue.obj [("current", JValue.num 1), ("pageSize", JValue.num 10)])
        "Agent").1.status_code = 404
    ∧ (test_post (mkTester {}) (CallOutcome.response 404 "" none 5)
        "/agent/page" (JValue.obj [("current", JValue.num 1), ("pageSize", JValue.num 10)])
        "Agent").1.error_message = "Expected 200, got 404" :=
  let h := c4_non_200_response_record (mkTester {}) "/agent/page" "Agent" ""
    (JValue.obj [("current", JValue.num 1), ("pageSize", JValue.num 10)])
    none 5 404 (by decide)
  ⟨h.2.1, h.2.2.1, h.2.2.2.1⟩

/-- **C5**: after a full `run_all_tests` from an empty log, the log holds
exactly 113 records — one per `test_get`/`test_post` invocation enumerated
across the twenty group methods — whatever the outcome of each call; the
113 recorded (method, path) pairs are pairwise distinct (each endpoint is
attempted exactly once, no retries). -/
theorem c5_full_run_log_length (t : Tester) (outs : List CallOutcome)
    (h : t.results = []) :
    (run_all_tests t outs).results.length = countCalls allSteps
    ∧ countCalls allSteps = 113
    ∧ (callIds allSteps).Nodup := by
  refine ⟨?_, countCalls_allSteps, by decide⟩
  rw [run_all_tests, runSteps_results_length, h]
  simp

theorem c5_full_run_log_length_witness :
    (run_all_tests (mkTester {}) []).results.length = countCalls allSteps
    ∧ countCalls allSteps = 113
    ∧ (callIds allSteps).Nodup :=
  c5_full_run_log_length (mkTester {}) [] rfl

/-- **C6**: the process exit code is 0 iff every record in the log has
`success = true`, it is 1 iff some record failed, and no other value
occurs — over every possible log, hence every combination of per-call
outcomes. -/
theorem c6_exit_code_iff_all_passed (results : List TestResult) :
    (mainExitCode results = 0 ↔ ∀ r ∈ results, r.success = true)
    ∧ (mainExitCode results = 1 ↔ ∃ r ∈ results, r.success = false)
    ∧ (mainExitCode results = 0 ∨ mainExitCode results = 1) := by
  have hall : results.countP (fun r => !r.success) = 0
      ↔ ∀ r ∈ results, r.success = true := by
    rw [List.countP_eq_zero]
    simp
  have hex : 0 < results.countP (fun r => !r.success)
      ↔ ∃ r ∈ results, r.success = false := by
    rw [List.countP_pos_iff]
    simp
  unfold mainExitCode
  rcases Nat.eq_zero_or_pos (results.countP (fun r => !r.success)) with hz | hp
  · have hA : ∀ r ∈ results, r.success = true := hall.mp hz
    rw [if_neg (by omega)]
    refine ⟨⟨fun _ => hA, fun _ => rfl⟩,
      ⟨fun h => absurd h (by norm_num), fun hEx => ?_⟩, Or.inl rfl⟩
    obtain ⟨r, hr, hs⟩ := hEx
    rw [hA r hr] at hs
    exact absurd hs (by simp)
  · have hE : ∃ r ∈ results, r.success = false := hex.mp hp
    rw [if_pos hp]
    refine ⟨⟨fun h => absurd h one_ne_zero, fun hA => ?_⟩,
      ⟨fun _ => hE, fun _ => rfl⟩, Or.inr rfl⟩
    obtain ⟨r, hr, hs⟩ := hE
    rw [hA r hr] at hs
    exact absurd hs (by simp)

/-- The run's step list with the ad-hoc Swagger-UI request removed. -/
def allStepsNoSwagger : List Step :=
  allSteps.filter (fun s => match s with
    | Step.swaggerCheck => false
    | Step.call _ => true)

/-- The steps following the Swagger-UI request in the full plan. -/
def stepsAfterSwagger : List Step := allSteps.drop 2

theorem runSteps_cons (t : Tester) (s : Step) (ss : List Step)
    (o : CallOutcome) (outs : List CallOutcome) :
    runSteps t (s :: ss) (o :: outs) = runSteps (runStep t o s) ss outs := rfl

set_option maxRecDepth 8000

theorem allSteps_decomp :
    allSteps = Step.call (Call.get "/v3/api-docs" "Health")
      :: Step.swaggerCheck :: stepsAfterSwagger := rfl

theorem allStepsNoSwagger_decomp :
    allStepsNoSwagger = Step.call (Call.get "/v3/api-docs" "Health")
      :: stepsAfterSwagger := rfl

/-- **C7**: the Swagger-UI check of the health group accepts status 200 or
302 (and only a received response with one of those), never touches the
runner state in any outcome, and the full run's log and summary are the
same as a run of the plan with that request deleted (the extra outcome it
consumed removed from the environment). -/
theorem c7_swagger_check_not_recorded :
    (∀ (t : Tester) (out : CallOutcome), runStep t out Step.swaggerCheck = t)
    ∧ (∀ out : CallOutcome, swagger_ok out = true ↔
        ∃ s txt p e, out = CallOutcome.response s txt p e ∧ (s = 200 ∨ s = 302))
    ∧ (∀ (t : Tester) (o0 osw : CallOutcome) (rest : List CallOutcome),
        runSteps t allSteps (o0 :: osw :: rest)
          = runSteps t allStepsNoSwagger (o0 :: rest)
        ∧ print_summary (runSteps t allSteps (o0 :: osw :: rest)).results
          = print_summary (runSteps t allStepsNoSwagger (o0 :: rest)).results) := by
  refine ⟨fun t out => rfl, ?_, ?_⟩
  · intro out
    cases out with
    | response s txt p e =>
        simp only [swagger_ok, Bool.or_eq_true, beq_iff_eq]
        constructor
        · intro h
          exact ⟨s, txt, p, e, rfl, h⟩
        · rintro ⟨s2, txt2, p2, e2, heq, h⟩
          cases heq
          exact h
    | timeout =>
        simp [swagger_ok]
    | failure m =>
        simp [swagger_ok]
  · intro t o0 osw rest
    have h : runSteps t allSteps (o0 :: osw :: rest)
        = runSteps t allStepsNoSwagger (o0 :: rest) := by
      rw [allSteps_decomp, allStepsNoSwagger_decomp,
        runSteps_cons, runSteps_cons, runSteps_cons]
      rfl
    exact ⟨h, congrArg (fun rs => print_summary rs.results) h⟩

/-- **C8**: the saved JSON document is an array of the same length as the
log, in log order; its i-th element is an object whose key list is exactly
(module, endpoint, method, success, status_code, response_time_ms,
error_message, response_body) and whose values are the i-th record's
fields.  `json.dump`/`json.load` on such a document is the identity on the
abstract value, so reloading the file yields this same structure. -/
theorem c8_save_reload_roundtrip (results : List TestResult) :
    ∃ elems : List JValue,
      save_results results = JValue.arr elems
      ∧ elems.length = results.length
      ∧ (∀ (i : Nat) (r : TestResult), results[i]? = some r →
          elems[i]? = some (JValue.obj r.to_dict))
      ∧ (∀ r : TestResult,
          r.to_dict.map Prod.fst =
            ["module", "endpoint", "method", "success", "status_code",
             "response_time_ms", "error_message", "response_body"]
          ∧ r.to_dict.lookup "module" = some (JValue.str r.module)
          ∧ r.to_dict.lookup "endpoint" = some (JValue.str r.endpoint)
          ∧ r.to_dict.lookup "method" = some (JValue.str r.method)
          ∧ r.to_dict.lookup "success" = some (JValue.bool r.success)
          ∧ r.to_dict.lookup "status_code" = some (JValue.num r.status_code)
          ∧ r.to_dict.lookup "response_time_ms"
              = some (JValue.num r.response_time_ms)
          ∧ r.to_dict.lookup "error_message" = some (JValue.str r.error_message)
          ∧ r.to_dict.lookup "response_body" = some r.response_body) := by
  refine ⟨results.map (fun r : TestResult => JValue.obj r.to_dict),
    ?_, ?_, ?_, ?_⟩
  · rfl
  · simp
  · intro i r h
    simp [List.getElem?_map, h]
  · intro r
    exact ⟨rfl, rfl, rfl, rfl, rfl, rfl, rfl, rfl, rfl⟩

/-- **C9**: after a full run from an empty log, the summary satisfies
`passed + failed = total`, `total` is positive (113, whatever the server
did), so the unguarded `passed/total*100` never divides by zero, and the
printed success rate equals that expression. -/
theorem c9_summary_invariants (t : Tester) (outs : List CallOutcome)
    (h : t.results = []) :
    (print_summary (run_all_tests t outs).results).passed
        + (print_summary (run_all_tests t outs).results).failed
      = (print_summary (run_all_tests t outs).results).total
    ∧ 0 < (print_summary (run_all_tests t outs).results).total
    ∧ (print_summary (run_all_tests t outs).results).rate
      = ((print_summary (run_all_tests t outs).results).passed : ℚ)
        / ((print_summary (run_all_tests t outs).results).total : ℚ) * 100 := by
  have hlen : (run_all_tests t outs).results.length = 113 := by
    rw [run_all_tests, runSteps_results_length, h, countCalls_allSteps]
    simp
  have hle : ((run_all_tests t outs).results.filter
      (fun r => r.success)).length ≤ (run_all_tests t outs).results.length :=
    List.length_filter_le _ _
  refine ⟨?_, ?_, rfl⟩
  · simp only [print_summary]
    omega
  · simp only [print_summary]
    omega

theorem c9_summary_invariants_witness :
    (print_summary (run_all_tests (mkTester {}) []).results).passed
        + (print_summary (run_all_tests (mkTester {}) []).results).failed
      = (print_summary (run_all_tests (mkTester {}) []).results).total
    ∧ 0 < (print_summary (run_all_tests (mkTester {}) []).results).total
    ∧ (print_summary (run_all_tests (mkTester {}) []).results).rate
      = ((print_summary (run_all_tests (mkTester {}) []).results).passed : ℚ)
        / ((print_summary (run_all_tests (mkTester {}) []).results).total : ℚ)
          * 100 :=
  c9_summary_invariants (mkTester {}) [] rfl

/-- **C10**: the `--verbose` flag does not interfere with any observable
output: for the same per-call outcomes, two argument vectors differing
only in `verbose` yield the same issued request sequence, the same result
log, the same saved file content and the same exit code. -/
theorem c10_verbose_noninterference (a : Args) (v : Bool)
    (outs : List CallOutcome) :
    mainRun { a with verbose := v } outs = mainRun a outs := rfl
